import Mathlib

/-!
Verification development for `src/googleearthengine.py`.

The script's original logic is the response-normalisation function
`ee_array_to_df(arr, list_of_bands)` (a pandas pipeline), the unit
conversion `t_modis_to_celsius`, the seasonal model `fit_func`, and a
call to `scipy.optimize.curve_fit`.  This file gives a shallow embedding
of that logic:

* a raw `getRegion` response is a list of rows, each row a list of
  heterogeneous cells (`Cell`): strings, numbers (modelled by `ℚ`,
  the idealisation of Python/pandas floats) or nulls (`None`/`NaN`);
* pandas exceptions (`IndexError` from `df.iloc[0]` on an empty frame,
  `KeyError` from selecting a missing column, `ValueError` from
  `pd.to_datetime` on an unparsable time) become an `Except Err` result;
* the pandas `datetime64[ns]` values produced by
  `pd.to_datetime(..., unit='ms')` are modelled by `Timestamp`, which —
  exactly like pandas — stores the instant as integer nanoseconds since
  the Unix epoch (timezone-naive, UTC-based); the UTC calendar fields
  are a derived view (`Timestamp.utc`).
-/

/-- A scalar field of a raw `getRegion` response row: a string, a number
(pandas numerics idealised as `ℚ`), or a null (`None` / `NaN`). -/
inductive Cell where
  | str (s : String)
  | num (q : ℚ)
  | null
deriving DecidableEq, Repr

/-- The failure modes of the embedded pipeline.  `indexError` models the
pandas `IndexError` raised by `df.iloc[0]` on an empty frame;
`schemaError` models the pandas `KeyError` raised by selecting a column
absent from the header (the spec's `SchemaError`); `valueError` models
`pd.to_datetime` failing on an unparsable time cell; `fitError` models
the fit failing (spec's `FitError`). -/
inductive Err where
  | indexError
  | schemaError
  | valueError
  | fitError
deriving DecidableEq, Repr

/-- `true` iff the cell is a null (`None`/`NaN`), i.e. what pandas
`dropna` treats as missing.  Strings — even `""` or `"NaN"` — are not
null for `dropna`. -/
def Cell.isNull : Cell → Bool
  | .null => true
  | _ => false

/-- Numeric value of the digit characters `cs` read in base 10. -/
def digitsVal (cs : List Char) : Nat :=
  cs.foldl (fun acc c => 10 * acc + (c.toNat - 48)) 0

/-- Parse a simple signed decimal literal (`"-12"`, `"3.5"`, `"1."`,
`".5"`) to a rational, the subset of Python float parsing exercised by
this pipeline; every other string (e.g. `""`, `"NaN"`, `"abc"`) yields
`none`, matching the `NaN` that `pd.to_numeric(..., errors='coerce')`
produces for it. -/
def parseDecimal (s : String) : Option ℚ :=
  let cs := s.toList
  let sgn : ℤ := match cs with
    | '-' :: _ => -1
    | _ => 1
  let body : List Char := match cs with
    | '-' :: t => t
    | '+' :: t => t
    | t => t
  let ipart := body.takeWhile Char.isDigit
  let rest := body.dropWhile Char.isDigit
  match rest with
  | [] =>
    if ipart.isEmpty then none
    else some ((sgn : ℚ) * (digitsVal ipart : ℚ))
  | '.' :: fpart =>
    if fpart.all Char.isDigit && !(ipart.isEmpty && fpart.isEmpty) then
      some ((sgn : ℚ) *
        ((digitsVal ipart * 10 ^ fpart.length + digitsVal fpart : ℚ) / (10 ^ fpart.length : ℚ)))
    else none
  | _ => none

/-- `pd.to_numeric(cell, errors='coerce')`: numbers pass through,
strings are parsed, and anything unparsable (or null) becomes `NaN`,
modelled as `none`. -/
def toNumericCoerce : Cell → Option ℚ
  | .num q => some q
  | .str s => parseDecimal s
  | .null => none

/-- Numeric reading of a cell as used by `pd.to_datetime(..., unit='ms')`;
`none` means the conversion raises. -/
def cellToQ : Cell → Option ℚ
  | .num q => some q
  | .str s => parseDecimal s
  | .null => none

/-- A pandas `datetime64[ns]` value as produced by
`pd.to_datetime(..., unit='ms')`: the instant is stored as integer
nanoseconds since the Unix epoch, timezone-naive and UTC-based.
Calendar fields (`Timestamp.utc`) are derived from this count. -/
structure Timestamp where
  ns : Int
deriving DecidableEq, Repr

/-- `pd.to_datetime(t, unit='ms')` on a numeric value `t`: scale
milliseconds to nanoseconds, flooring (exact on the integer timestamps
that `getRegion` returns).  Written on the numerator and denominator so
that runs of the pipeline evaluate inside the kernel; `msToNs_eq_floor`
states the floor semantics. -/
def msToNs (q : ℚ) : Int := q.num * 1000000 / (q.den : ℤ)

/-- Milliseconds since the epoch of a timestamp, i.e. pandas
`ts.value // 10**6` (`/` on `ℤ` is Euclidean division, which is floor
division for this positive divisor). -/
def tsToMs (ts : Timestamp) : Int := ts.ns / 1000000

/-- One row of the DataFrame returned by `ee_array_to_df`: the columns
`['time', 'datetime', *list_of_bands]` of line 92.  `time` keeps the raw
cell (that column is never passed through `to_numeric`), `datetime` is
the converted timestamp, and `bands` holds, in request order, the
band values after `pd.to_numeric(..., errors='coerce')` (`none` = `NaN`). -/
structure Sample where
  time : Cell
  datetime : Timestamp
  bands : List (Option ℚ)
deriving DecidableEq, Repr

/-- The columns selected on line 82:
`df[['longitude', 'latitude', 'time', *list_of_bands]]`. -/
def requiredCols (list_of_bands : List String) : List String :=
  ["longitude", "latitude", "time"] ++ list_of_bands

/-- Position of column `name` in the header row, as pandas column
selection resolves it; `none` models the `KeyError` for a missing
column. -/
def colIdx (header : List Cell) (name : String) : Option Nat :=
  match header with
  | [] => none
  | c :: rest =>
    if c = Cell.str name then some 0
    else (colIdx rest name).map (· + 1)

/-- Map `f` over a list, failing if `f` fails anywhere (the shape of a
column lookup over several column names). -/
def optionMapList (f : α → Option β) : List α → Option (List β)
  | [] => some []
  | a :: l =>
    match f a, optionMapList f l with
    | some b, some bs => some (b :: bs)
    | _, _ => none

/-- Map `f` over a list, propagating the first error (the shape of a
row-wise pandas conversion that may raise). -/
def exceptMapList (f : α → Except Err β) : List α → Except Err (List β)
  | [] => .ok []
  | a :: l =>
    match f a, exceptMapList f l with
    | .ok b, .ok bs => .ok (b :: bs)
    | .error e, _ => .error e
    | .ok _, .error e => .error e

/-- Project a raw row onto the selected column positions.  A position
beyond the row's length reads as null, matching how `pd.DataFrame`
pads ragged rows with `NaN`. -/
def selectRow (row : List Cell) (idxs : List Nat) : List Cell :=
  idxs.map (fun i => row.getD i Cell.null)

/-- `true` iff no selected cell is null — exactly the rows `dropna()`
keeps on line 82. -/
def rowComplete (cells : List Cell) : Bool :=
  cells.all (fun c => !(Cell.isNull c))

/-- Build one output row from the selected cells
`[longitude, latitude, time, band₁, …]` of a surviving row: coerce each
band with `to_numeric` (line 86), convert `time` to a timestamp
(line 89, an error if the time cell is unparsable), and keep
`['time', 'datetime', *bands]` (line 92). -/
def mkSample (selected : List Cell) : Except Err Sample :=
  let timeCell := selected.getD 2 Cell.null
  match cellToQ timeCell with
  | none => .error .valueError
  | some q =>
    .ok { time := timeCell
          datetime := ⟨msToNs q⟩
          bands := (selected.drop 3).map toNumericCoerce }

/-- The embedding of `ee_array_to_df(arr, list_of_bands)`
(src/googleearthengine.py lines 73–94):

* `df.iloc[0]` on an empty input raises (`indexError`);
* the header is the first row; selecting
  `['longitude', 'latitude', 'time', *list_of_bands]` fails with
  `schemaError` when a name is absent from the header;
* `dropna()` removes exactly the rows with a null among the selected
  cells — note this happens BEFORE the `to_numeric` coercion;
* each surviving row becomes a `Sample` via `mkSample` (coercion to
  numeric, `NaN` for unparsable band strings, and the
  `time → datetime` conversion which raises on unparsable times). -/
def ee_array_to_df (arr : List (List Cell)) (list_of_bands : List String) :
    Except Err (List Sample) :=
  match arr with
  | [] => .error .indexError
  | header :: rows =>
    match optionMapList (colIdx header) (requiredCols list_of_bands) with
    | none => .error .schemaError
    | some idxs =>
      exceptMapList mkSample ((rows.map (fun r => selectRow r idxs)).filter rowComplete)

/-- The embedding of `t_modis_to_celsius` (lines 100–103). -/
def t_modis_to_celsius (t_modis : ℚ) : ℚ :=
  0.02 * t_modis - 273.15

/-- Line 106, `df[band] = df[band].apply(f)`: replace band column `j`
of every sample by `f` of its value (mapping `NaN` to `NaN`, as a float
`apply` of an affine function does).  In the script `j = 0`, the
position of `'LST_Day_1km'` in the requested bands. -/
def applyBandAt (j : Nat) (f : ℚ → ℚ) (samples : List Sample) : List Sample :=
  samples.map (fun s => { s with bands := s.bands.set j ((s.bands.getD j none).map f) })

/-- The embedding of `fit_func(t, lst0, delta_lst, tau, phi)`
(lines 130–131), with `np.sin`/`np.pi` idealised as the real sine and π. -/
noncomputable def fit_func (t lst0 delta_lst tau phi : ℝ) : ℝ :=
  lst0 + (delta_lst / 2) * Real.sin (2 * Real.pi * t / tau + phi)

/-- The seasonal model stated by the spec:
`f(t; baseline, amplitude, period, phase) = baseline + (amplitude/2)·sin(2π·t/period + phase)`. -/
noncomputable def seasonalModelEval (baseline amplitude period phase t : ℝ) : ℝ :=
  baseline + (amplitude / 2) * Real.sin (2 * Real.pi * t / period + phase)

/-- Modelled from the spec: `optimize.curve_fit` (lines 139–140) is scipy
library code, not part of this repository.  Spec §4.2: the fit "fails
with `FitError` ... if `series` has fewer samples than free parameters
(4)"; otherwise a black-box nonlinear least-squares optimizer (abstracted
here as `solver`, itself allowed to fail) produces the parameters. -/
def curve_fit
    (solver : (ℝ → ℝ → ℝ → ℝ → ℝ → ℝ) → List ℝ → List ℝ → ℝ × ℝ × ℝ × ℝ →
      Except Err (ℝ × ℝ × ℝ × ℝ))
    (f : ℝ → ℝ → ℝ → ℝ → ℝ → ℝ) (xdata ydata : List ℝ) (p0 : ℝ × ℝ × ℝ × ℝ) :
    Except Err (ℝ × ℝ × ℝ × ℝ) :=
  if xdata.length < 4 then .error .fitError
  else solver f xdata ydata p0

/-- A degenerate optimizer instance (returns the initial guess), used to
instantiate the abstract solver in concrete checks. -/
def echoSolver :
    (ℝ → ℝ → ℝ → ℝ → ℝ → ℝ) → List ℝ → List ℝ → ℝ × ℝ × ℝ × ℝ →
      Except Err (ℝ × ℝ × ℝ × ℝ) :=
  fun _ _ _ p0 => .ok p0

/-- `true` iff every requested band of the sample carries an actual
number (no `NaN`). -/
def sampleBandsPopulated (s : Sample) : Bool :=
  s.bands.all Option.isSome

/-- Decidable equality for pipeline results, so that closed runs of the
embedding can be checked by `decide`. -/
instance {ε α : Type} [DecidableEq ε] [DecidableEq α] : DecidableEq (Except ε α) := fun x y =>
  match x, y with
  | .ok a, .ok b =>
    if h : a = b then .isTrue (by rw [h]) else .isFalse (by intro hc; cases hc; exact h rfl)
  | .error a, .error b =>
    if h : a = b then .isTrue (by rw [h]) else .isFalse (by intro hc; cases hc; exact h rfl)
  | .ok _, .error _ => .isFalse (by intro hc; cases hc)
  | .error _, .ok _ => .isFalse (by intro hc; cases hc)

/-- A header row of the shape `getRegion` actually returns for this
script (`lst.getRegion(u_poi, scale)` with bands
`LST_Day_1km`, `QC_Day`): id, longitude, latitude, time, band columns. -/
def demoHeader : List Cell :=
  [.str "id", .str "longitude", .str "latitude", .str "time", .str "LST_Day_1km"]

/-- A raw data row with every selected field present and numeric
(time 951868800000 ms = 2000-03-01T00:00:00Z, band value 14645). -/
def demoRowGood : List Cell :=
  [.str "a", .num (-89), .num 43, .num 951868800000, .num 14645]

/-- The sample `ee_array_to_df` produces from `demoRowGood`. -/
def demoSampleGood : Sample :=
  ⟨Cell.num 951868800000, ⟨951868800000000000⟩, [some 14645]⟩

/-- A raw data row whose band field is null (`None`), the case `dropna`
removes. -/
def demoRowNull : List Cell :=
  [.str "b", .num (-89), .num 43, .num 1, .null]

/-- A raw data row whose band field is the non-numeric string `"NaN"`. -/
def demoRowNaN : List Cell :=
  [.str "c", .num (-89), .num 43, .num 3, .str "NaN"]

/-- The sample `ee_array_to_df` produces from `demoRowNaN`: retained,
with the band coerced to `NaN`. -/
def demoSampleNaN : Sample :=
  ⟨Cell.num 3, ⟨3000000⟩, [none]⟩

/-- A raw data row whose band field is the empty string. -/
def demoRowEmptyStr : List Cell :=
  [.str "d", .num (-89), .num 43, .num 0, .str ""]

/-- The sample `ee_array_to_df` produces from `demoRowEmptyStr`. -/
def demoSampleEmptyStr : Sample :=
  ⟨Cell.num 0, ⟨0⟩, [none]⟩

/-- UTC calendar fields at millisecond resolution. -/
structure UTCFields where
  year : Int
  month : Nat
  day : Nat
  hour : Nat
  minute : Nat
  second : Nat
  millisecond : Nat
deriving DecidableEq, Repr

/-- Proleptic-Gregorian date of a day count relative to 1970-01-01
(the civil-from-days algorithm used by calendar libraries). -/
def civilFromDays (z0 : Int) : Int × Nat × Nat :=
  let z := z0 + 719468
  let era := z / 146097
  let doe := (z % 146097).toNat
  let yoe := (doe - doe / 1460 + doe / 36524 - doe / 146096) / 365
  let doy := doe - (365 * yoe + yoe / 4 - yoe / 100)
  let mp := (5 * doy + 2) / 153
  let d := doy - (153 * mp + 2) / 5 + 1
  let m := if mp < 10 then mp + 3 else mp - 9
  let y := (yoe : Int) + era * 400 + (if m ≤ 2 then 1 else 0)
  (y, m, d)

/-- The UTC calendar view of a timestamp — what pandas renders when a
`datetime64[ns]` value is displayed.  Derived from the stored
nanosecond count; the timestamp itself remains the instant. -/
def Timestamp.utc (ts : Timestamp) : UTCFields :=
  let ms := ts.ns / 1000000
  let days := ms / 86400000
  let msOfDay := (ms % 86400000).toNat
  let ymd := civilFromDays days
  { year := ymd.1
    month := ymd.2.1
    day := ymd.2.2
    hour := msOfDay / 3600000
    minute := msOfDay % 3600000 / 60000
    second := msOfDay % 60000 / 1000
    millisecond := msOfDay % 1000 }

/-- If `exceptMapList` succeeds, every input element was mapped
successfully to the output element in the same position. -/
theorem exceptMapList_ok {f : α → Except Err β} :
    ∀ {l : List α} {out : List β}, exceptMapList f l = .ok out →
      List.Forall₂ (fun a b => f a = Except.ok b) l out := by
  intro l
  induction l with
  | nil =>
    intro out h
    simp only [exceptMapList] at h
    cases h
    exact List.Forall₂.nil
  | cons a l ih =>
    intro out h
    simp only [exceptMapList] at h
    cases hfa : f a with
    | error e => rw [hfa] at h; cases hrest : exceptMapList f l <;> rw [hrest] at h <;> cases h
    | ok b =>
      rw [hfa] at h
      cases hrest : exceptMapList f l with
      | error e => rw [hrest] at h; cases h
      | ok bs =>
        rw [hrest] at h
        cases h
        exact List.Forall₂.cons hfa (ih hrest)

/-- A right element of a `Forall₂` pairing has a related left partner. -/
theorem forall2_exists_left {R : α → β → Prop} :
    ∀ {l1 : List α} {l2 : List β}, List.Forall₂ R l1 l2 → ∀ {b : β}, b ∈ l2 →
      ∃ a, a ∈ l1 ∧ R a b := by
  intro l1 l2 h
  induction h with
  | nil => intro b hb; cases hb
  | cons hR hF ih =>
    intro b hb
    rcases List.mem_cons.mp hb with rfl | hb2
    · exact ⟨_, List.mem_cons_self _ _, hR⟩
    · rcases ih hb2 with ⟨a, ha, hr⟩
      exact ⟨a, List.mem_cons_of_mem _ ha, hr⟩

/-- Pointwise-equal projections of `Forall₂`-related lists have equal maps. -/
theorem forall2_map_eq {R : α → β → Prop} (f : α → γ) (g : β → γ)
    (hfg : ∀ a b, R a b → f a = g b) :
    ∀ {l1 : List α} {l2 : List β}, List.Forall₂ R l1 l2 → l1.map f = l2.map g := by
  intro l1 l2 h
  induction h with
  | nil => rfl
  | cons hR hF ih => simp only [List.map_cons, hfg _ _ hR, ih]

/-- The fields of a successfully built sample, in terms of the selected
cells of the surviving row. -/
theorem mkSample_fields {selected : List Cell} {s : Sample}
    (h : mkSample selected = .ok s) :
    s.time = selected.getD 2 Cell.null ∧
    (∃ q, cellToQ (selected.getD 2 Cell.null) = some q ∧ s.datetime = ⟨msToNs q⟩) ∧
    s.bands = (selected.drop 3).map toNumericCoerce := by
  simp only [mkSample] at h
  cases hq : cellToQ (selected.getD 2 Cell.null) with
  | none => rw [hq] at h; cases h
  | some q =>
    rw [hq] at h
    cases h
    exact ⟨rfl, ⟨q, rfl, rfl⟩, rfl⟩

/-- Successful lookups through `optionMapList` preserve length. -/
theorem optionMapList_length {f : α → Option β} :
    ∀ {l : List α} {out : List β}, optionMapList f l = some out → out.length = l.length := by
  intro l
  induction l with
  | nil => intro out h; simp only [optionMapList] at h; cases h; rfl
  | cons a l ih =>
    intro out h
    simp only [optionMapList] at h
    cases hfa : f a with
    | none => rw [hfa] at h; cases h
    | some b =>
      rw [hfa] at h
      cases hrest : optionMapList f l with
      | none => rw [hrest] at h; cases h
      | some bs =>
        rw [hrest] at h
        cases h
        simp [ih hrest]

/-- `optionMapList` fails as soon as one lookup fails. -/
theorem optionMapList_none_of_mem {f : α → Option β} :
    ∀ {l : List α} {a : α}, a ∈ l → f a = none → optionMapList f l = none := by
  intro l
  induction l with
  | nil => intro a ha _; cases ha
  | cons b l ih =>
    intro a ha hfa
    rcases List.mem_cons.mp ha with rfl | ha2
    · simp [optionMapList, hfa]
    · simp only [optionMapList, ih ha2 hfa]
      cases f b <;> rfl

/-- A column name absent from the header has no position. -/
theorem colIdx_eq_none {header : List Cell} {name : String}
    (h : Cell.str name ∉ header) : colIdx header name = none := by
  induction header with
  | nil => rfl
  | cons c rest ih =>
    simp only [colIdx]
    rw [if_neg, ih]
    · rfl
    · exact fun hm => h (List.mem_cons_of_mem _ hm)
    · exact fun hm => h (hm ▸ List.mem_cons_self _ _)

/-- Decomposition of a successful run of `ee_array_to_df`: the output is
the row-wise image of exactly the null-free selected rows, in order. -/
theorem ee_ok_decomp {header : List Cell} {rows : List (List Cell)}
    {bands : List String} {idxs : List Nat} {out : List Sample}
    (hidx : optionMapList (colIdx header) (requiredCols bands) = some idxs)
    (hok : ee_array_to_df (header :: rows) bands = .ok out) :
    List.Forall₂ (fun r s => mkSample r = Except.ok s)
      ((rows.map (fun r => selectRow r idxs)).filter rowComplete) out := by
  simp only [ee_array_to_df] at hok
  rw [hidx] at hok
  exact exceptMapList_ok hok

/-- Setting band slot `j` to a mapped copy of itself, then reading slot
`j`, yields the mapped value (also when `j` is out of range, where both
sides are `none`). -/
theorem getD_set_map (l : List (Option ℚ)) (j : Nat) (f : ℚ → ℚ) :
    (l.set j ((l.getD j none).map f)).getD j none = (l.getD j none).map f := by
  induction l generalizing j with
  | nil => cases j <;> rfl
  | cons a l ih =>
    cases j with
    | zero => rfl
    | succ n => simpa [List.set, List.getD] using ih n

/-- C2: `t_modis_to_celsius` returns exactly `0.02 * x - 273.15` for
every raw band value `x`; raw `14645` maps to `19.75` °C; and the
script-level application (line 106) converts every band value of the
series through exactly this function, position by position. -/
theorem t_modis_to_celsius_spec :
    (∀ x : ℚ, t_modis_to_celsius x = 0.02 * x - 273.15) ∧
    t_modis_to_celsius 14645 = 19.75 ∧
    ∀ (samples : List Sample) (j : Nat),
      (applyBandAt j t_modis_to_celsius samples).map (fun s => s.bands.getD j none) =
        samples.map (fun s => (s.bands.getD j none).map t_modis_to_celsius) := by
  refine ⟨fun x => rfl, by norm_num [t_modis_to_celsius], ?_⟩
  intro samples j
  induction samples with
  | nil => rfl
  | cons s ss ih =>
    simp only [applyBandAt, List.map_cons] at ih ⊢
    rw [getD_set_map, ih]

/-- C7: the normaliser is a pure function of its input — two runs on
equal raw responses and equal band lists give identical results. -/
theorem ee_array_to_df_deterministic :
    ∀ (arr1 arr2 : List (List Cell)) (bands1 bands2 : List String),
      arr1 = arr2 → bands1 = bands2 →
      ee_array_to_df arr1 bands1 = ee_array_to_df arr2 bands2 := by
  intro arr1 arr2 bands1 bands2 h1 h2
  rw [h1, h2]

/-- Witness for C7 at a concrete input. -/
theorem ee_array_to_df_deterministic_witness :
    ee_array_to_df [demoHeader] ["LST_Day_1km"] = ee_array_to_df [demoHeader] ["LST_Day_1km"] :=
  ee_array_to_df_deterministic [demoHeader] [demoHeader] ["LST_Day_1km"] ["LST_Day_1km"] rfl rfl

/-- C8: `fit_func` computes exactly the seasonal model
`baseline + (amplitude/2)·sin(2π·t/period + phase)` stated by the spec,
for every `t` and every parameter tuple. -/
theorem fit_func_is_seasonal_model :
    ∀ t lst0 delta_lst tau phi : ℝ,
      fit_func t lst0 delta_lst tau phi = seasonalModelEval lst0 delta_lst tau phi t :=
  fun _ _ _ _ _ => rfl

/-- C9: with fewer than 4 data points (fewer samples than free
parameters), the fit fails with `fitError` and never returns a result,
whatever the underlying optimizer would do. -/
theorem curve_fit_underdetermined :
    ∀ solver f (xdata ydata : List ℝ) p0, xdata.length < 4 →
      curve_fit solver f xdata ydata p0 = .error .fitError := by
  intro solver f xdata ydata p0 h
  simp only [curve_fit]
  rw [if_pos h]

/-- Witness for C9: an empty series is rejected even though the
optimizer instance would happily return its initial guess. -/
theorem curve_fit_underdetermined_witness :
    ([] : List ℝ).length < 4 ∧
      curve_fit echoSolver fit_func [] [] (20, 40, 31536000000, 0) = .error .fitError :=
  ⟨by decide, curve_fit_underdetermined echoSolver fit_func [] [] (20, 40, 31536000000, 0) (by decide)⟩

/-- C10: the unit conversion is strictly monotone, and
`(t_modis_to_celsius x + 273.15) / 0.02` recovers the raw encoding. -/
theorem t_modis_to_celsius_monotone_invertible :
    ∀ x y : ℚ, (x < y → t_modis_to_celsius x < t_modis_to_celsius y) ∧
      (t_modis_to_celsius x + 273.15) / 0.02 = x := by
  intro x y
  constructor
  · intro h
    simp only [t_modis_to_celsius]
    have h2 : (0.02 : ℚ) * x < 0.02 * y := by
      apply mul_lt_mul_of_pos_left h
      norm_num
    linarith
  · simp only [t_modis_to_celsius]
    rw [sub_add_cancel]
    rw [mul_comm, mul_div_assoc]
    norm_num

/-- Witness for C10 at concrete raw values 14600 < 14645. -/
theorem t_modis_to_celsius_monotone_invertible_witness :
    t_modis_to_celsius 14600 < t_modis_to_celsius 14645 ∧
      (t_modis_to_celsius 14600 + 273.15) / 0.02 = 14600 :=
  ⟨(t_modis_to_celsius_monotone_invertible 14600 14645).1 (by norm_num),
   (t_modis_to_celsius_monotone_invertible 14600 14645).2⟩

/-- C5: requesting a band name absent from the header row makes
`ee_array_to_df` fail with the schema error (the pandas `KeyError` of
line 82, the spec's `SchemaError`), producing no series at all. -/
theorem ee_array_to_df_missing_band :
    ∀ (header : List Cell) (rows : List (List Cell)) (bands : List String) (b : String),
      b ∈ bands → Cell.str b ∉ header →
      ee_array_to_df (header :: rows) bands = .error .schemaError := by
  intro header rows bands b hb hnot
  have hnone : optionMapList (colIdx header) (requiredCols bands) = none :=
    optionMapList_none_of_mem (List.mem_append_right _ hb) (colIdx_eq_none hnot)
  simp only [ee_array_to_df]
  rw [hnone]

/-- Witness for C5: requesting `QC_Day` from a header that only carries
`LST_Day_1km` fails with the schema error. -/
theorem ee_array_to_df_missing_band_witness :
    "QC_Day" ∈ ["QC_Day"] ∧ Cell.str "QC_Day" ∉ demoHeader ∧
      ee_array_to_df [demoHeader, [.str "a", .num (-89), .num 43, .num 0, .num 14645]]
        ["QC_Day"] = .error .schemaError :=
  ⟨by decide, by decide,
   ee_array_to_df_missing_band demoHeader [[.str "a", .num (-89), .num 43, .num 0, .num 14645]]
     ["QC_Day"] "QC_Day" (by decide) (by decide)⟩

/-- C6 counterexample: on the empty raw response — which has fewer than
2 elements — `ee_array_to_df` raises (the `IndexError` of `df.iloc[0]`
on line 78) instead of returning an empty series, so the claim that
every input with fewer than 2 elements yields an empty series without
error is false. -/
theorem ee_array_to_df_empty_input_raises :
    ee_array_to_df [] ["LST_Day_1km"] = .error .indexError ∧
      ee_array_to_df [] ["LST_Day_1km"] ≠ .ok [] := by
  decide

/-- C6 (amended): a raw response consisting of only a header row that
resolves all requested columns yields an empty series with no error;
the empty raw response instead raises the index error. -/
theorem ee_array_to_df_short_input :
    ∀ (header : List Cell) (bands : List String) (idxs : List Nat),
      optionMapList (colIdx header) (requiredCols bands) = some idxs →
      ee_array_to_df [header] bands = .ok [] ∧
        ee_array_to_df [] bands = .error .indexError := by
  intro header bands idxs hidx
  constructor
  · simp only [ee_array_to_df]
    rw [hidx]
    rfl
  · rfl

/-- Witness for C6 (amended) at the script's header shape. -/
theorem ee_array_to_df_short_input_witness :
    optionMapList (colIdx demoHeader) (requiredCols ["LST_Day_1km"]) = some [1, 2, 3, 4] ∧
      ee_array_to_df [demoHeader] ["LST_Day_1km"] = .ok [] ∧
        ee_array_to_df [] ["LST_Day_1km"] = .error .indexError :=
  ⟨by decide,
   (ee_array_to_df_short_input demoHeader ["LST_Day_1km"] [1, 2, 3, 4] (by decide)).1,
   (ee_array_to_df_short_input demoHeader ["LST_Day_1km"] [1, 2, 3, 4] (by decide)).2⟩

/-- The millisecond-to-nanosecond scaling of `pd.to_datetime(..., unit='ms')`
floors exact sub-millisecond fractions, i.e. `msToNs` is the floor of
`q · 10⁶`. -/
theorem msToNs_eq_floor (q : ℚ) : msToNs q = ⌊q * 1000000⌋ := by
  have h : (q * 1000000 : ℚ) = ((q.num * 1000000 : ℤ) : ℚ) / ((q.den : ℕ) : ℚ) := by
    calc (q * 1000000 : ℚ) = ((q.num : ℚ) / (q.den : ℚ)) * 1000000 := by
          rw [Rat.num_div_den]
    _ = ((q.num * 1000000 : ℤ) : ℚ) / ((q.den : ℕ) : ℚ) := by push_cast; ring
  rw [h, Rat.floor_intCast_div_natCast]
  rfl

/-- Sanity check of the derived UTC calendar view: nanosecond count 0 is
1970-01-01T00:00:00.000Z. -/
theorem utc_view_epoch : (Timestamp.mk 0).utc = ⟨1970, 1, 1, 0, 0, 0, 0⟩ := by decide

/-- Sanity check of the derived UTC calendar view across a leap day:
951868800000 ms since the epoch is 2000-03-01T00:00:00.000Z. -/
theorem utc_view_leap_year :
    (Timestamp.mk 951868800000000000).utc = ⟨2000, 3, 1, 0, 0, 0, 0⟩ := by decide

/-- C1 counterexample: a data row whose requested band field is the
non-numeric string `""` is NOT excluded from the output — `dropna` runs
before the numeric coercion (lines 82 vs 86), so the row survives and
appears in the result with the band coerced to `NaN` (`none`). -/
theorem ee_array_to_df_keeps_noncoercible_row :
    ee_array_to_df [demoHeader, demoRowEmptyStr] ["LST_Day_1km"] =
      .ok [demoSampleEmptyStr] ∧
    ee_array_to_df [demoHeader, demoRowEmptyStr] ["LST_Day_1km"] ≠ .ok [] ∧
    sampleBandsPopulated demoSampleEmptyStr = false := by
  decide

/-- C1 (amended): the row-exclusion policy of `ee_array_to_df` is decided
by `dropna` alone: exactly the rows with a null among the selected
columns are dropped, and every surviving row — including one whose band
is a non-numeric string — yields an output sample whose band values are
the `to_numeric` coercions of its cells (`none` when coercion fails). -/
theorem ee_array_to_df_drop_policy :
    ∀ (header : List Cell) (rows : List (List Cell)) (bands : List String)
      (idxs : List Nat) (out : List Sample),
      optionMapList (colIdx header) (requiredCols bands) = some idxs →
      ee_array_to_df (header :: rows) bands = .ok out →
      out.length = ((rows.map (fun r => selectRow r idxs)).filter rowComplete).length ∧
      ∀ s ∈ out, ∃ r, r ∈ rows ∧ rowComplete (selectRow r idxs) = true ∧
        s.bands = ((selectRow r idxs).drop 3).map toNumericCoerce := by
  intro header rows bands idxs out hidx hok
  have hf := ee_ok_decomp hidx hok
  refine ⟨hf.length_eq.symm, ?_⟩
  intro s hs
  rcases forall2_exists_left hf hs with ⟨sel, hsel, hmk⟩
  rcases List.mem_filter.mp hsel with ⟨hmem, hcomp⟩
  rcases List.mem_map.mp hmem with ⟨r, hr, rfl⟩
  exact ⟨r, hr, hcomp, (mkSample_fields hmk).2.2⟩

/-- Witness for C1 (amended): of three rows — band null, band numeric,
band `"NaN"` — `dropna` removes only the null row; the `"NaN"` row is
retained with band `none`. -/
theorem ee_array_to_df_drop_policy_witness :
    optionMapList (colIdx demoHeader) (requiredCols ["LST_Day_1km"]) = some [1, 2, 3, 4] ∧
    ee_array_to_df [demoHeader, demoRowNull, demoRowGood, demoRowNaN] ["LST_Day_1km"] =
      .ok [demoSampleGood, demoSampleNaN] ∧
    ([demoSampleGood, demoSampleNaN].length =
      (([demoRowNull, demoRowGood, demoRowNaN].map
        (fun r => selectRow r [1, 2, 3, 4])).filter rowComplete).length ∧
      ∀ s ∈ [demoSampleGood, demoSampleNaN],
        ∃ r, r ∈ [demoRowNull, demoRowGood, demoRowNaN] ∧
          rowComplete (selectRow r [1, 2, 3, 4]) = true ∧
          s.bands = ((selectRow r [1, 2, 3, 4]).drop 3).map toNumericCoerce) :=
  ⟨by decide, by decide,
   ee_array_to_df_drop_policy demoHeader [demoRowNull, demoRowGood, demoRowNaN]
     ["LST_Day_1km"] [1, 2, 3, 4] [demoSampleGood, demoSampleNaN] (by decide) (by decide)⟩

/-- C3 counterexample: the output of `ee_array_to_df` can contain a
sample whose requested band is NOT populated — a row with band `"NaN"`
survives `dropna` and its band is coerced to `NaN` (`none`), falsifying
"every sample has all requested bands populated". -/
theorem ee_array_to_df_unpopulated_band :
    ee_array_to_df [demoHeader, demoRowNaN] ["LST_Day_1km"] = .ok [demoSampleNaN] ∧
    sampleBandsPopulated demoSampleNaN = false := by
  decide

/-- C3 (amended): for a raw response with a valid header and `N` data
rows, the output has length at most `N`, its samples keep the relative
order of the surviving input rows (the output time column is a sublist
of the input rows' time column), and every sample carries one value
slot per requested band — though a slot may hold `NaN` (`none`) when
coercion failed, not necessarily a number. -/
theorem ee_array_to_df_shape :
    ∀ (header : List Cell) (rows : List (List Cell)) (bands : List String)
      (idxs : List Nat) (out : List Sample),
      optionMapList (colIdx header) (requiredCols bands) = some idxs →
      ee_array_to_df (header :: rows) bands = .ok out →
      out.length ≤ rows.length ∧
      List.Sublist (out.map Sample.time)
        (rows.map (fun r => (selectRow r idxs).getD 2 Cell.null)) ∧
      ∀ s ∈ out, s.bands.length = bands.length := by
  intro header rows bands idxs out hidx hok
  have hf := ee_ok_decomp hidx hok
  have hlen : out.length ≤ rows.length := by
    rw [← hf.length_eq]
    calc ((rows.map (fun r => selectRow r idxs)).filter rowComplete).length
        ≤ (rows.map (fun r => selectRow r idxs)).length := List.length_filter_le _ _
      _ = rows.length := List.length_map _ _
  refine ⟨hlen, ?_, ?_⟩
  · have hmap :
        ((rows.map (fun r => selectRow r idxs)).filter rowComplete).map
          (fun sel => sel.getD 2 Cell.null) = out.map Sample.time :=
      forall2_map_eq (fun sel => sel.getD 2 Cell.null) Sample.time
        (fun sel s h => ((mkSample_fields h).1).symm) hf
    have hsub :
        List.Sublist ((rows.map (fun r => selectRow r idxs)).filter rowComplete)
          (rows.map (fun r => selectRow r idxs)) := List.filter_sublist _
    have hsub2 := hsub.map (fun sel => sel.getD 2 Cell.null)
    rw [← hmap]
    simpa [List.map_map, Function.comp] using hsub2
  · intro s hs
    rcases forall2_exists_left hf hs with ⟨sel, hsel, hmk⟩
    rcases List.mem_filter.mp hsel with ⟨hmem, _⟩
    rcases List.mem_map.mp hmem with ⟨r, hr, rfl⟩
    have hidxlen : idxs.length = 3 + bands.length := by
      have hl := optionMapList_length hidx
      simp [requiredCols] at hl
      omega
    rw [(mkSample_fields hmk).2.2]
    simp [selectRow]
    omega

/-- Witness for C3 (amended): two rows, of which the null row is
dropped; the surviving sample keeps the input order and carries one
slot for the one requested band. -/
theorem ee_array_to_df_shape_witness :
    optionMapList (colIdx demoHeader) (requiredCols ["LST_Day_1km"]) = some [1, 2, 3, 4] ∧
    ee_array_to_df [demoHeader, demoRowNull, demoRowGood] ["LST_Day_1km"] =
      .ok [demoSampleGood] ∧
    ([demoSampleGood].length ≤ [demoRowNull, demoRowGood].length ∧
      List.Sublist ([demoSampleGood].map Sample.time)
        ([demoRowNull, demoRowGood].map
          (fun r => (selectRow r [1, 2, 3, 4]).getD 2 Cell.null)) ∧
      ∀ s ∈ [demoSampleGood], s.bands.length = ["LST_Day_1km"].length) :=
  ⟨by decide, by decide,
   ee_array_to_df_shape demoHeader [demoRowNull, demoRowGood] ["LST_Day_1km"]
     [1, 2, 3, 4] [demoSampleGood] (by decide) (by decide)⟩

/-- C4: every output sample's `time` field is the surviving input row's
time cell, its `datetime` is the timestamp obtained by reading that
cell as milliseconds since the Unix epoch (stored, as in pandas, as
nanoseconds since the epoch, UTC), and when the time cell holds an
integer `t` — as `getRegion` timestamps do — converting the `datetime`
back to milliseconds reproduces `t` exactly. -/
theorem ee_array_to_df_time_roundtrip :
    ∀ (header : List Cell) (rows : List (List Cell)) (bands : List String)
      (idxs : List Nat) (out : List Sample) (s : Sample),
      optionMapList (colIdx header) (requiredCols bands) = some idxs →
      ee_array_to_df (header :: rows) bands = .ok out →
      s ∈ out →
      ∃ r, r ∈ rows ∧ s.time = (selectRow r idxs).getD 2 Cell.null ∧
        ∃ q, cellToQ s.time = some q ∧ s.datetime = ⟨msToNs q⟩ ∧
          ∀ t : ℤ, s.time = Cell.num (t : ℚ) → tsToMs s.datetime = t := by
  intro header rows bands idxs out s hidx hok hs
  have hf := ee_ok_decomp hidx hok
  rcases forall2_exists_left hf hs with ⟨sel, hsel, hmk⟩
  rcases List.mem_filter.mp hsel with ⟨hmem, _⟩
  rcases List.mem_map.mp hmem with ⟨r, hr, rfl⟩
  rcases mkSample_fields hmk with ⟨htime, ⟨q, hq, hdt⟩, _⟩
  refine ⟨r, hr, htime, q, ?_, hdt, ?_⟩
  · rw [htime]
    exact hq
  · intro t ht
    have hq2 : cellToQ s.time = some q := by rw [htime]; exact hq
    rw [ht] at hq2
    simp only [cellToQ] at hq2
    have h3 := Option.some.inj hq2
    subst h3
    rw [hdt]
    simp only [tsToMs, msToNs, Rat.num_intCast, Rat.den_intCast, Nat.cast_one, Int.ediv_one]
    exact Int.mul_ediv_cancel t (by norm_num)

/-- Witness for C4: the sample built from time cell 951868800000
(2000-03-01T00:00:00Z) stores 951868800000000000 ns and floor-divides
back to exactly 951868800000 ms. -/
theorem ee_array_to_df_time_roundtrip_witness :
    optionMapList (colIdx demoHeader) (requiredCols ["LST_Day_1km"]) = some [1, 2, 3, 4] ∧
    ee_array_to_df [demoHeader, demoRowGood] ["LST_Day_1km"] = .ok [demoSampleGood] ∧
    demoSampleGood ∈ [demoSampleGood] ∧
    (∃ r, r ∈ [demoRowGood] ∧
      demoSampleGood.time = (selectRow r [1, 2, 3, 4]).getD 2 Cell.null ∧
      ∃ q, cellToQ demoSampleGood.time = some q ∧
        demoSampleGood.datetime = ⟨msToNs q⟩ ∧
        ∀ t : ℤ, demoSampleGood.time = Cell.num (t : ℚ) →
          tsToMs demoSampleGood.datetime = t) :=
  ⟨by decide, by decide, by decide,
   ee_array_to_df_time_roundtrip demoHeader [demoRowGood] ["LST_Day_1km"]
     [1, 2, 3, 4] [demoSampleGood] demoSampleGood (by decide) (by decide) (by decide)⟩
